import Mathlib

/-!
Verification of the combustion-rust-ble protocol stack.

Shallow embedding of the Rust sources into Lean 4:
* machine integers (`u8`, `u16`, `u32`) are modelled as `Nat` with explicit
  `% 2^w` (or `&&& mask`) where the Rust code can wrap or truncate;
* `f64` values are modelled as `ℚ` (every arithmetic step performed by the
  code on the values of interest is exact at this granularity, and all
  claims carry a 0.1 tolerance that absorbs the idealisation);
* Rust's saturating `as u16` / `as u8` casts of a rounded float are
  modelled as `Int.toNat` (negative saturates to 0) followed by `min`
  with the type's maximum;
* fallible functions return `Option` / `Except`.
-/

set_option maxHeartbeats 4000000

namespace Combustion

/-! ## CRC engine (src/protocol/crc.rs) -/

/-- One iteration of the inner loop of `calculate_crc`:
`if crc & 0x8000 != 0 { crc = (crc << 1) ^ 0x1021 } else { crc <<= 1 }`,
on a `u16` register (hence the `% 65536`). -/
def crcStep (c : Nat) : Nat :=
  if c &&& 0x8000 ≠ 0 then ((c <<< 1) ^^^ 0x1021) % 65536 else (c <<< 1) % 65536

/-- Processing of one data byte by `calculate_crc`:
`crc ^= (byte as u16) << 8;` followed by eight shift steps. -/
def crcByte (crc b : Nat) : Nat :=
  crcStep^[8] (crc ^^^ (b <<< 8))

/-- `calculate_crc`: CRC-16/CCITT-FALSE with initial register `0xFFFF`. -/
def calculate_crc (data : List Nat) : Nat :=
  data.foldl crcByte 0xFFFF

/-- `append_crc`: the data followed by the CRC as two little-endian bytes
(`crc.to_le_bytes()` = `[crc % 256, crc / 256]`). -/
def append_crc (data : List Nat) : List Nat :=
  data ++ [calculate_crc data % 256, calculate_crc data / 256]

/-- `verify_crc`: inputs shorter than 3 bytes are rejected; otherwise the
last two bytes are read as a little-endian CRC of the preceding bytes. -/
def verify_crc (data : List Nat) : Bool :=
  if data.length < 3 then
    false
  else
    let payload_len := data.length - 2
    let expected_crc := calculate_crc (data.take payload_len)
    let actual_crc := data.getD payload_len 0 + 256 * data.getD (payload_len + 1) 0
    expected_crc == actual_crc

/-- Modelling helper: the buffer with bit `j` of byte `i` flipped. -/
def flipBit (l : List Nat) (i j : Nat) : List Nat :=
  l.set i (l.getD i 0 ^^^ (1 <<< j))

/-! ## Raw temperatures (src/data/temperatures.rs) -/

/-- `RawTemperature::to_celsius`: `0x1FFF` is the invalid sentinel,
otherwise `raw * 0.05 - 20.0`. -/
def rawTemp_to_celsius (raw : Nat) : Option ℚ :=
  if raw = 0x1FFF then none else some ((raw : ℚ) * 0.05 - 20)

/-- `RawTemperature::from_celsius`:
`((celsius + 20.0) * 20.0).round() as u16` (saturating cast), then
`.min(MAX_VALUE)` with `MAX_VALUE = 0x1FFE`. -/
def rawTemp_from_celsius (celsius : ℚ) : Nat :=
  min (min (Int.toNat (round ((celsius + 20) * 20))) 65535) 0x1FFE

/-- One iteration of the packing loop of `ProbeTemperatures::to_packed_bytes`.
`result[byte_offset] |= (raw << bit_position) as u8` etc.; the `u16` shift
wraps at 65536 and the `as u8` cast truncates to the low byte. -/
def packStep (v : Fin 8 → Nat) (result : List Nat) (i : Fin 8) : List Nat :=
  let byte_offset := 13 * i.val / 8
  let bit_position := 13 * i.val % 8
  let raw_value := v i &&& 0x1FFF
  let r0 := result.set byte_offset
      (result.getD byte_offset 0 ||| ((raw_value <<< bit_position) % 65536 % 256))
  let r1 := r0.set (byte_offset + 1)
      (r0.getD (byte_offset + 1) 0 ||| ((raw_value >>> (8 - bit_position)) % 256))
  if bit_position > 3 ∧ byte_offset + 2 < 13 then
    r1.set (byte_offset + 2)
      (r1.getD (byte_offset + 2) 0 ||| ((raw_value >>> (16 - bit_position)) % 256))
  else
    r1

/-- `ProbeTemperatures::to_packed_bytes`: 8 sequential 13-bit fields in 13
bytes, written over an all-zero buffer. -/
def to_packed_bytes (v : Fin 8 → Nat) : List Nat :=
  (List.finRange 8).foldl (packStep v) (List.replicate 13 0)

/-- The 13-bit field extraction of `ProbeTemperatures::from_packed_bytes`
for value `i` (the `u16` arithmetic wraps at 65536; the final mask and the
mask in `RawTemperature::new` coincide). -/
def unpackValue (data : List Nat) (i : Nat) : Nat :=
  let byte_offset := 13 * i / 8
  let bit_position := 13 * i % 8
  if bit_position ≤ 3 then
    ((data.getD byte_offset 0 >>> bit_position) |||
      ((data.getD (byte_offset + 1) 0 <<< (8 - bit_position)) % 65536)) &&& 0x1FFF
  else
    ((data.getD byte_offset 0 >>> bit_position) |||
      ((data.getD (byte_offset + 1) 0 <<< (8 - bit_position)) % 65536) |||
      ((data.getD (byte_offset + 2) 0 <<< (16 - bit_position)) % 65536)) &&& 0x1FFF

/-- `ProbeTemperatures::from_packed_bytes`: `None` on fewer than 13 bytes. -/
def from_packed_bytes (data : List Nat) : Option (Fin 8 → Nat) :=
  if data.length < 13 then none else some fun i => unpackValue data i.val

/-! ## Virtual sensor selection (src/data/temperatures.rs,
src/ble/advertising.rs) -/

/-- `VirtualSensorSelection` (sensor indices are 0-based). -/
structure VirtualSensorSelection where
  core_sensor : Nat
  surface_sensor : Nat
  ambient_sensor : Nat
  deriving DecidableEq

/-- `VirtualSensorSelection::from_byte`. -/
def virtualSelection_from_byte (byte : Nat) : VirtualSensorSelection :=
  { core_sensor := byte &&& 0x07
    surface_sensor := ((byte >>> 3) &&& 0x03) + 3
    ambient_sensor := ((byte >>> 5) &&& 0x03) + 4 }

/-- `VirtualTemperatures`. -/
structure VirtualTemperatures where
  core : Option ℚ
  surface : Option ℚ
  ambient : Option ℚ
  sensor_selection : VirtualSensorSelection
  deriving DecidableEq

/-- `AdvertisingData::compute_virtual_temps`: the selected physical reading
for each channel, guarded by `core < 6` (respectively `surface < 8`,
`ambient < 8`). -/
def compute_virtual_temps (temps : Fin 8 → Nat) (virtual_sensors_byte : Nat) :
    VirtualTemperatures :=
  let sel := virtualSelection_from_byte virtual_sensors_byte
  { core :=
      if h : sel.core_sensor < 6 then
        rawTemp_to_celsius (temps ⟨sel.core_sensor, by omega⟩)
      else none
    surface :=
      if h : sel.surface_sensor < 8 then
        rawTemp_to_celsius (temps ⟨sel.surface_sensor, h⟩)
      else none
    ambient :=
      if h : sel.ambient_sensor < 8 then
        rawTemp_to_celsius (temps ⟨sel.ambient_sensor, h⟩)
      else none
    sensor_selection := sel }

/-- Total indexing helper for statements: the raw reading of physical
sensor `i` (0 for an out-of-bounds index). -/
def sensorAt (temps : Fin 8 → Nat) (i : Nat) : Nat :=
  if h : i < 8 then temps ⟨i, h⟩ else 0

/-! ## Alarms (src/data/alarms.rs) -/

/-- `AlarmStatus` (the threshold temperature is an `f64`, modelled as `ℚ`). -/
structure AlarmStatus where
  set : Bool
  tripped : Bool
  alarming : Bool
  temperature : ℚ
  deriving DecidableEq

/-- The raw 13-bit threshold computed by `AlarmStatus::to_bytes`:
`((temperature + 20.0) / 0.1).round() as u16` (saturating cast) followed by
`.min(0x1FFF)`. -/
def alarmTempRaw (temperature : ℚ) : Nat :=
  min (min (Int.toNat (round ((temperature + 20) / 0.1))) 65535) 0x1FFF

/-- The packed `u16` built by `AlarmStatus::to_bytes`. -/
def alarmPacked (a : AlarmStatus) : Nat :=
  let packed0 := if a.set then 0 ||| 0x01 else 0
  let packed1 := if a.tripped then packed0 ||| 0x02 else packed0
  let packed2 := if a.alarming then packed1 ||| 0x04 else packed1
  packed2 ||| ((alarmTempRaw a.temperature &&& 0x1FFF) <<< 3)

/-- `AlarmStatus::to_bytes` (`packed.to_le_bytes()`). -/
def alarmStatus_to_bytes (a : AlarmStatus) : List Nat :=
  [alarmPacked a % 256, alarmPacked a / 256]

/-- `AlarmStatus::from_bytes`. -/
def alarmStatus_from_bytes (bytes : List Nat) : Option AlarmStatus :=
  if bytes.length < 2 then none
  else
    let packed := bytes.getD 0 0 + 256 * bytes.getD 1 0
    let temp_raw := (packed >>> 3) &&& 0x1FFF
    some
      { set := packed &&& 0x01 ≠ 0
        tripped := packed &&& 0x02 ≠ 0
        alarming := packed &&& 0x04 ≠ 0
        temperature := (temp_raw : ℚ) * 0.1 - 20 }

/-- `AlarmConfig` (11 high + 11 low alarms). -/
structure AlarmConfig where
  high_alarms : List AlarmStatus
  low_alarms : List AlarmStatus
  deriving DecidableEq

/-! ## Food safety (src/data/food_safety.rs) -/

/-- `FoodSafeMode`. -/
inductive FoodSafeMode where
  | Simplified
  | Integrated
  deriving DecidableEq

/-- `FoodSafeMode::to_raw`. -/
def FoodSafeMode.to_raw : FoodSafeMode → Nat
  | .Simplified => 0
  | .Integrated => 1

/-- `FoodSafeMode::from_raw` (reserved values default to `Simplified`). -/
def foodSafeMode_from_raw (value : Nat) : FoodSafeMode :=
  if value &&& 0x07 = 0 then .Simplified
  else if value &&& 0x07 = 1 then .Integrated
  else .Simplified

/-- `Serving`. -/
inductive Serving where
  | ServedImmediately
  | CookedAndChilled
  deriving DecidableEq

/-- `Serving::to_raw`. -/
def Serving.to_raw : Serving → Nat
  | .ServedImmediately => 0
  | .CookedAndChilled => 1

/-- `Serving::from_raw` (reserved values default to `ServedImmediately`). -/
def serving_from_raw (value : Nat) : Serving :=
  if value &&& 0x07 = 0 then .ServedImmediately
  else if value &&& 0x07 = 1 then .CookedAndChilled
  else .ServedImmediately

/-- `FoodSafeState`. -/
inductive FoodSafeState where
  | NotSafe
  | Safe
  | SafetyImpossible
  deriving DecidableEq

/-- `FoodSafeConfig` (the five scalar parameters are `f64`, modelled as
`ℚ`; `product` is the raw 10-bit `u16` code). -/
structure FoodSafeConfig where
  mode : FoodSafeMode
  product : Nat
  serving : Serving
  threshold_temperature : ℚ
  z_value : ℚ
  reference_temperature : ℚ
  d_value_at_reference : ℚ
  target_log_reduction : ℚ
  deriving DecidableEq

/-- The `encode_13bit` closure of `FoodSafeConfig::to_bytes`:
`(value / 0.05).round() as u16 & 0x1FFF` — a saturating cast to `u16`
followed by a *mask* (not a clamp) to 13 bits. -/
def encode_13bit (value : ℚ) : Nat :=
  min (Int.toNat (round (value / 0.05))) 65535 &&& 0x1FFF

/-- The `encode_8bit` closure of `FoodSafeConfig::to_bytes`:
`(value / 0.1).round() as u8` (saturating cast). -/
def encode_8bit (value : ℚ) : Nat :=
  min (Int.toNat (round (value / 0.1))) 255

/-- The `decode_13bit` closure of `FoodSafeConfig::from_bytes`. -/
def decode_13bit (raw : Nat) : ℚ :=
  ((raw &&& 0x1FFF : Nat) : ℚ) * 0.05

/-- The `decode_8bit` closure of `FoodSafeConfig::from_bytes`. -/
def decode_8bit (raw : Nat) : ℚ :=
  (raw : ℚ) * 0.1

/-- `FoodSafeConfig::to_bytes`: the 10-byte packed layout. Every `as u8`
truncation is `% 256` / a mask, exactly as in the source; `|=` on a byte
already holding the low bits of a field is `|||`. -/
def foodSafeConfig_to_bytes (c : FoodSafeConfig) : List Nat :=
  let threshold := encode_13bit c.threshold_temperature
  let z := encode_13bit c.z_value
  let ref_temp := encode_13bit c.reference_temperature
  let d := encode_13bit c.d_value_at_reference
  let log_red := encode_8bit c.target_log_reduction
  [ (c.mode.to_raw &&& 0x07) ||| ((c.product % 256 &&& 0x1F) <<< 3),
    ((c.product >>> 5) % 256 &&& 0x1F) ||| ((c.serving.to_raw &&& 0x07) <<< 5),
    threshold % 256,
    ((threshold >>> 8) &&& 0x1F) ||| (((z &&& 0x07) <<< 5) % 256),
    (z >>> 3) &&& 0xFF,
    ((z >>> 11) &&& 0x03) ||| (((ref_temp &&& 0x3F) <<< 2) % 256),
    ((ref_temp >>> 6) &&& 0x7F) ||| (((d &&& 0x01) <<< 7) % 256),
    (d >>> 1) &&& 0xFF,
    ((d >>> 9) &&& 0x0F) ||| (((log_red &&& 0x0F) <<< 4) % 256),
    (log_red >>> 4) &&& 0x0F ]

/-- `FoodSafeConfig::from_bytes`. -/
def foodSafeConfig_from_bytes (bytes : List Nat) : Option FoodSafeConfig :=
  if bytes.length < 10 then none
  else
    let b := fun i => bytes.getD i 0
    let product_low := b 0 >>> 3
    let product_high := b 1 &&& 0x1F
    let threshold_raw := b 2 ||| ((b 3 &&& 0x1F) <<< 8)
    let z_raw := (b 3 >>> 5) ||| (b 4 <<< 3) ||| ((b 5 &&& 0x03) <<< 11)
    let ref_raw := (b 5 >>> 2) ||| ((b 6 &&& 0x7F) <<< 6)
    let d_raw := (b 6 >>> 7) ||| (b 7 <<< 1) ||| ((b 8 &&& 0x0F) <<< 9)
    let log_raw := (b 8 >>> 4) ||| ((b 9 &&& 0x0F) <<< 4)
    some
      { mode := foodSafeMode_from_raw (b 0 &&& 0x07)
        product := product_low ||| (product_high <<< 5)
        serving := serving_from_raw ((b 1 >>> 5) &&& 0x07)
        threshold_temperature := decode_13bit threshold_raw
        z_value := decode_13bit z_raw
        reference_temperature := decode_13bit ref_raw
        d_value_at_reference := decode_13bit d_raw
        target_log_reduction := decode_8bit log_raw }

/-- `FoodSafeStatus` (already-parsed form; its byte layout is not needed by
the claims). -/
structure FoodSafeStatus where
  state : FoodSafeState
  log_reduction : ℚ
  seconds_above_threshold : Nat
  sequence_number : Nat
  deriving DecidableEq

/-- `FoodSafeServingState` (legacy). -/
inductive FoodSafeServingState where
  | NotSafe
  | SafeToServe
  deriving DecidableEq

/-- `FoodSafeServingState::from_state`. -/
def foodSafeServingState_from_state (state : FoodSafeState) : FoodSafeServingState :=
  match state with
  | .Safe => .SafeToServe
  | _ => .NotSafe

/-- `FoodSafeData` (the legacy `product` enum is modelled by its raw tag;
its value is never inspected by the state-merge code under test). -/
structure FoodSafeData where
  product : Nat
  serving_state : FoodSafeServingState
  log_reduction : ℚ
  seconds_above_threshold : Nat
  config : Option FoodSafeConfig
  status : Option FoodSafeStatus
  deriving DecidableEq

/-- `FoodSafeData::with_config`. -/
def FoodSafeData.with_config (config : FoodSafeConfig) : FoodSafeData :=
  { product := 0
    serving_state := .NotSafe
    log_reduction := 0
    seconds_above_threshold := 0
    config := some config
    status := none }

/-- `FoodSafeData::from_config_and_status`. -/
def FoodSafeData.from_config_and_status (config : FoodSafeConfig)
    (status : FoodSafeStatus) : FoodSafeData :=
  { product := 0
    serving_state := foodSafeServingState_from_state status.state
    log_reduction := status.log_reduction
    seconds_above_threshold := status.seconds_above_threshold
    config := some config
    status := some status }

/-- `FoodSafeData::update_config`. -/
def FoodSafeData.update_config (d : FoodSafeData) (config : FoodSafeConfig) :
    FoodSafeData :=
  { d with config := some config }

/-- `FoodSafeData::update_from_status`. -/
def FoodSafeData.update_from_status (d : FoodSafeData) (status : FoodSafeStatus) :
    FoodSafeData :=
  { d with
    serving_state := foodSafeServingState_from_state status.state
    log_reduction := status.log_reduction
    seconds_above_threshold := status.seconds_above_threshold
    status := some status }

/-! ## Prediction (src/data/prediction.rs) -/

/-- `PredictionState`. -/
inductive PredictionState where
  | ProbeNotInserted
  | ProbeInserted
  | Warming
  | Predicting
  | RemovalPredictionDone
  | ReservedState5
  | ReservedState6
  | Unknown
  deriving DecidableEq

/-- `PredictionMode`. -/
inductive PredictionMode where
  | None
  | TimeToRemoval
  | RemovalAndResting
  | Reserved
  deriving DecidableEq

/-- `PredictionType`. -/
inductive PredictionType where
  | None
  | Removal
  | Resting
  | Reserved
  deriving DecidableEq

/-- `PredictionInfo` (`f64` temperatures modelled as `ℚ`). -/
structure PredictionInfo where
  state : PredictionState
  mode : PredictionMode
  prediction_type : PredictionType
  set_point_temperature : ℚ
  heat_start_temperature : ℚ
  prediction_value_seconds : Nat
  estimated_core_temperature : ℚ
  seconds_since_prediction_start : Nat
  core_sensor_index : Nat
  deriving DecidableEq

/-- `PredictionInfo::temperature_progress`: `None` when
`|set_point - heat_start| < 0.001`, otherwise the progress ratio clamped
to `[0, 100]` (Rust's `clamp(0.0, 100.0)` is `min (max · 0) 100`). -/
def temperature_progress (p : PredictionInfo) : Option ℚ :=
  let total_range := p.set_point_temperature - p.heat_start_temperature
  if |total_range| < 0.001 then none
  else
    let current_progress := p.estimated_core_temperature - p.heat_start_temperature
    let percentage := current_progress / total_range * 100
    some (min (max percentage 0) 100)

/-! ## UART messages (src/protocol/uart_messages.rs) -/

/-- `UartMessageType`. -/
inductive UartMessageType where
  | SetProbeId
  | SetProbeIdResponse
  | SetProbeColor
  | SetProbeColorResponse
  | ReadSessionInfo
  | ReadSessionInfoResponse
  | ReadLogs
  | ReadLogsResponse
  | SetPrediction
  | SetPredictionResponse
  | ReadOverTemperature
  | ReadOverTemperatureResponse
  | ConfigureFoodSafe
  | ConfigureFoodSafeResponse
  | ResetFoodSafe
  | ResetFoodSafeResponse
  | SetPowerMode
  | SetPowerModeResponse
  | ResetThermometer
  | ResetThermometerResponse
  | SetHighLowAlarms
  | SetHighLowAlarmsResponse
  | SilenceAlarms
  | SilenceAlarmsResponse
  | Unknown
  deriving DecidableEq

/-- `UartMessageType::from_raw` (unknown values decode to `Unknown`). -/
def uartMessageType_from_raw (value : Nat) : UartMessageType :=
  if value = 0x01 then .SetProbeId
  else if value = 0x81 then .SetProbeIdResponse
  else if value = 0x02 then .SetProbeColor
  else if value = 0x82 then .SetProbeColorResponse
  else if value = 0x03 then .ReadSessionInfo
  else if value = 0x83 then .ReadSessionInfoResponse
  else if value = 0x04 then .ReadLogs
  else if value = 0x84 then .ReadLogsResponse
  else if value = 0x05 then .SetPrediction
  else if value = 0x85 then .SetPredictionResponse
  else if value = 0x06 then .ReadOverTemperature
  else if value = 0x86 then .ReadOverTemperatureResponse
  else if value = 0x07 then .ConfigureFoodSafe
  else if value = 0x87 then .ConfigureFoodSafeResponse
  else if value = 0x08 then .ResetFoodSafe
  else if value = 0x88 then .ResetFoodSafeResponse
  else if value = 0x09 then .SetPowerMode
  else if value = 0x89 then .SetPowerModeResponse
  else if value = 0x0A then .ResetThermometer
  else if value = 0x8A then .ResetThermometerResponse
  else if value = 0x0B then .SetHighLowAlarms
  else if value = 0x8B then .SetHighLowAlarmsResponse
  else if value = 0x0C then .SilenceAlarms
  else if value = 0x8C then .SilenceAlarmsResponse
  else .Unknown

/-- The `Error` variants produced by `UartMessage::parse`
(`Error::InvalidData { context }` / `Error::CrcMismatch { expected, actual }`;
the human-readable context string is not modelled). -/
inductive UartError where
  | invalidData
  | crcMismatch (expected : Nat) (actual : Nat)
  deriving DecidableEq

/-- `UartMessageHeader`. -/
structure UartMessageHeader where
  message_type : UartMessageType
  payload_length : Nat
  deriving DecidableEq

/-- `UartMessageHeader::SIZE`. -/
def uartHeaderSize : Nat := 6

/-- `UartMessageHeader::parse`: length check, then sync-byte check; the CRC
is *not* examined here. -/
def uartHeader_parse (data : List Nat) : Except UartError UartMessageHeader :=
  if data.length < uartHeaderSize then
    .error .invalidData
  else if data.getD 0 0 ≠ 0xCA ∨ data.getD 1 0 ≠ 0xFE then
    .error .invalidData
  else
    .ok { message_type := uartMessageType_from_raw (data.getD 4 0)
          payload_length := data.getD 5 0 }

/-- `UartMessage`. -/
structure UartMessage where
  header : UartMessageHeader
  payload : List Nat
  deriving DecidableEq

/-- `UartMessage::parse`: length check, header parse (sync check), total
length check, then CRC over `[msg_type, payload_len, payload]`; a CRC
mismatch reports the computed (`expected`) and stored (`actual`) values. -/
def uartMessage_parse (data : List Nat) : Except UartError UartMessage :=
  if data.length < uartHeaderSize then
    .error .invalidData
  else
    match uartHeader_parse data with
    | .error e => .error e
    | .ok header =>
      let expected_len := uartHeaderSize + header.payload_length
      if data.length < expected_len then
        .error .invalidData
      else
        let received_crc := data.getD 2 0 + 256 * data.getD 3 0
        let crc_data := data.getD 4 0 :: data.getD 5 0 ::
          ((data.drop 6).take header.payload_length)
        let calculated_crc := calculate_crc crc_data
        if received_crc ≠ calculated_crc then
          .error (.crcMismatch calculated_crc received_crc)
        else
          .ok { header := header, payload := (data.drop 6).take header.payload_length }

/-! ## Probe state reconciliation (src/probe.rs) -/

/-- `ID_COLOR_GRACE_PERIOD` (5 seconds; time is modelled in whole seconds,
`Instant` subtraction saturates at zero like `duration_since`). -/
def ID_COLOR_GRACE_PERIOD : Nat := 5

/-- The grace-period test
`set_at.map(|t| now.duration_since(t) < ID_COLOR_GRACE_PERIOD).unwrap_or(false)`. -/
def in_grace_period (set_at : Option Nat) (now : Nat) : Bool :=
  (set_at.map fun t => decide (now - t < ID_COLOR_GRACE_PERIOD)).getD false

/-- `ProbeState` (the mutable per-probe snapshot). Pass-through fields
whose internal structure no claim inspects (`mode`, `battery_status`,
`overheating`, `thermometer_preferences`) are carried as raw codes. -/
structure ProbeState where
  serial_number : Nat
  probe_id : Nat
  color : Nat
  probe_id_set_at : Option Nat
  color_set_at : Option Nat
  temperatures : Fin 8 → Nat
  virtual_temperatures : VirtualTemperatures
  prediction : Option PredictionInfo
  battery_status : Nat
  mode : Nat
  overheating : Nat
  min_sequence : Nat
  max_sequence : Nat
  food_safe_data : Option FoodSafeData
  rssi : Option Int
  last_update : Nat
  thermometer_preferences : Option Nat
  alarm_config : Option AlarmConfig

/-- `AdvertisingData` as consumed by `Probe::update_from_advertising`. -/
structure AdvertisingData where
  product_type : Nat
  serial_number : Nat
  temperatures : Fin 8 → Nat
  mode : Nat
  probe_id : Nat
  color : Nat
  battery_status : Nat
  virtual_temperatures : VirtualTemperatures
  overheating_sensors : Nat

/-- `Probe::update_from_advertising` (probe.rs lines 197-237): temperatures,
virtual temperatures, battery, mode, overheating, rssi and `last_update`
are overwritten unconditionally; `probe_id` and `color` only outside their
grace periods. -/
def update_from_advertising (s : ProbeState) (adv : AdvertisingData)
    (rssi : Option Int) (now : Nat) : ProbeState :=
  let id_in_grace_period := in_grace_period s.probe_id_set_at now
  let color_in_grace_period := in_grace_period s.color_set_at now
  { s with
    temperatures := adv.temperatures
    virtual_temperatures := adv.virtual_temperatures
    probe_id := if ¬ id_in_grace_period then adv.probe_id else s.probe_id
    color := if ¬ color_in_grace_period then adv.color else s.color
    battery_status := adv.battery_status
    mode := adv.mode
    overheating := adv.overheating_sensors
    rssi := rssi
    last_update := now }

/-- The parsed session-status notification as consumed by probe.rs.
probe.rs's notification handler reads the optional
`food_safe_config` / `food_safe_status` / `thermometer_preferences` /
`alarm_config` members in addition to the fields that
`protocol::status::ProbeStatus::parse` populates. -/
structure ProbeStatus where
  min_sequence_number : Nat
  max_sequence_number : Nat
  temperatures : Fin 8 → Nat
  mode : Nat
  probe_id : Nat
  color : Nat
  battery_status : Nat
  virtual_temperatures : VirtualTemperatures
  prediction : Option PredictionInfo
  overheating : Nat
  thermometer_preferences : Option Nat
  alarm_config : Option AlarmConfig
  food_safe_config : Option FoodSafeConfig
  food_safe_status : Option FoodSafeStatus

/-- `Probe::update_from_status` (probe.rs lines 241-286): same id/color
grace policy as the advertising path; sequence bounds and prediction are
refreshed unconditionally; `food_safe_data` is not touched. -/
def update_from_status (s : ProbeState) (status : ProbeStatus) (now : Nat) :
    ProbeState :=
  let id_in_grace_period := in_grace_period s.probe_id_set_at now
  let color_in_grace_period := in_grace_period s.color_set_at now
  { s with
    temperatures := status.temperatures
    virtual_temperatures := status.virtual_temperatures
    probe_id := if ¬ id_in_grace_period then status.probe_id else s.probe_id
    color := if ¬ color_in_grace_period then status.color else s.color
    battery_status := status.battery_status
    mode := status.mode
    overheating := status.overheating
    min_sequence := status.min_sequence_number
    max_sequence := status.max_sequence_number
    prediction := status.prediction
    last_update := now }

/-- The state mutation performed by the status-notification handler
(probe.rs lines 416-469), including the four-way food-safety merge: both
sections present update (or create) the existing `FoodSafeData`; a config
alone updates or creates; a status alone updates only existing data; and
when both sections are absent `food_safe_data` is left untouched. -/
def apply_status_notification (s : ProbeState) (status : ProbeStatus)
    (now : Nat) : ProbeState :=
  let base :=
    { s with
      temperatures := status.temperatures
      virtual_temperatures := status.virtual_temperatures
      battery_status := status.battery_status
      mode := status.mode
      overheating := status.overheating
      min_sequence := status.min_sequence_number
      max_sequence := status.max_sequence_number
      prediction := status.prediction
      thermometer_preferences := status.thermometer_preferences
      alarm_config := status.alarm_config
      last_update := now }
  match status.food_safe_config, status.food_safe_status with
  | some config, some fs_status =>
    match s.food_safe_data with
    | some d =>
      { base with food_safe_data := some ((d.update_from_status fs_status).update_config config) }
    | none =>
      { base with food_safe_data := some (FoodSafeData.from_config_and_status config fs_status) }
  | some config, none =>
    match s.food_safe_data with
    | none => { base with food_safe_data := some (FoodSafeData.with_config config) }
    | some d =>
      { base with food_safe_data := some (d.update_config config) }
  | none, some fs_status =>
    match s.food_safe_data with
    | some d =>
      { base with food_safe_data := some (d.update_from_status fs_status) }
    | none => base
  | none, none => base

/-- `Probe::set_id` (state mutation part, probe.rs lines 912-925): the id
is overwritten immediately and `probe_id_set_at` records the current time. -/
def set_id (s : ProbeState) (id : Nat) (now : Nat) : ProbeState :=
  { s with probe_id := id, probe_id_set_at := some now }

/-- `Probe::set_color` (state mutation part): symmetric to `set_id`. -/
def set_color (s : ProbeState) (color : Nat) (now : Nat) : ProbeState :=
  { s with color := color, color_set_at := some now }

/-! ## Helper lemmas: bit arithmetic -/

/-- Disjoint `|||` is `+`: the left operand lives above bit `k`, the right
below it. -/
theorem orEqAddOfMod {k a b : Nat} (ha : a % 2 ^ k = 0) (hb : b < 2 ^ k) :
    a ||| b = a + b := by
  have hdvd : 2 ^ k * (a / 2 ^ k) = a := Nat.mul_div_cancel' (Nat.dvd_of_mod_eq_zero ha)
  calc a ||| b = 2 ^ k * (a / 2 ^ k) ||| b := by rw [hdvd]
    _ = 2 ^ k * (a / 2 ^ k) + b := (Nat.mul_add_lt_is_or hb _).symm
    _ = a + b := by rw [hdvd]

/-- Disjoint `|||` is `+`, mirrored operands. -/
theorem orEqAddOfMod' {k a b : Nat} (ha : a < 2 ^ k) (hb : b % 2 ^ k = 0) :
    a ||| b = a + b := by
  rw [Nat.or_comm, orEqAddOfMod hb ha, Nat.add_comm]

theorem andMask1 (x : Nat) : x &&& 1 = x % 2 := by
  simpa using Nat.and_pow_two_sub_one_eq_mod x 1

theorem andMask3 (x : Nat) : x &&& 3 = x % 4 := by
  simpa using Nat.and_pow_two_sub_one_eq_mod x 2

theorem andMask7 (x : Nat) : x &&& 7 = x % 8 := by
  simpa using Nat.and_pow_two_sub_one_eq_mod x 3

theorem andMask15 (x : Nat) : x &&& 15 = x % 16 := by
  simpa using Nat.and_pow_two_sub_one_eq_mod x 4

theorem andMask31 (x : Nat) : x &&& 31 = x % 32 := by
  simpa using Nat.and_pow_two_sub_one_eq_mod x 5

theorem andMask63 (x : Nat) : x &&& 63 = x % 64 := by
  simpa using Nat.and_pow_two_sub_one_eq_mod x 6

theorem andMask127 (x : Nat) : x &&& 127 = x % 128 := by
  simpa using Nat.and_pow_two_sub_one_eq_mod x 7

theorem andMask255 (x : Nat) : x &&& 255 = x % 256 := by
  simpa using Nat.and_pow_two_sub_one_eq_mod x 8

theorem andMask8191 (x : Nat) : x &&& 8191 = x % 8192 := by
  simpa using Nat.and_pow_two_sub_one_eq_mod x 13

theorem shiftL1 (x : Nat) : x <<< 1 = x * 2 := by rw [Nat.shiftLeft_eq]
theorem shiftL2 (x : Nat) : x <<< 2 = x * 4 := by rw [Nat.shiftLeft_eq]
theorem shiftL3 (x : Nat) : x <<< 3 = x * 8 := by rw [Nat.shiftLeft_eq]
theorem shiftL4 (x : Nat) : x <<< 4 = x * 16 := by rw [Nat.shiftLeft_eq]
theorem shiftL5 (x : Nat) : x <<< 5 = x * 32 := by rw [Nat.shiftLeft_eq]
theorem shiftL6 (x : Nat) : x <<< 6 = x * 64 := by rw [Nat.shiftLeft_eq]
theorem shiftL7 (x : Nat) : x <<< 7 = x * 128 := by rw [Nat.shiftLeft_eq]
theorem shiftL8 (x : Nat) : x <<< 8 = x * 256 := by rw [Nat.shiftLeft_eq]
theorem shiftL9 (x : Nat) : x <<< 9 = x * 512 := by rw [Nat.shiftLeft_eq]
theorem shiftL10 (x : Nat) : x <<< 10 = x * 1024 := by rw [Nat.shiftLeft_eq]
theorem shiftL11 (x : Nat) : x <<< 11 = x * 2048 := by rw [Nat.shiftLeft_eq]
theorem shiftL12 (x : Nat) : x <<< 12 = x * 4096 := by rw [Nat.shiftLeft_eq]

theorem shiftR1 (x : Nat) : x >>> 1 = x / 2 := by rw [Nat.shiftRight_eq_div_pow]
theorem shiftR2 (x : Nat) : x >>> 2 = x / 4 := by rw [Nat.shiftRight_eq_div_pow]
theorem shiftR3 (x : Nat) : x >>> 3 = x / 8 := by rw [Nat.shiftRight_eq_div_pow]
theorem shiftR4 (x : Nat) : x >>> 4 = x / 16 := by rw [Nat.shiftRight_eq_div_pow]
theorem shiftR5 (x : Nat) : x >>> 5 = x / 32 := by rw [Nat.shiftRight_eq_div_pow]
theorem shiftR6 (x : Nat) : x >>> 6 = x / 64 := by rw [Nat.shiftRight_eq_div_pow]
theorem shiftR7 (x : Nat) : x >>> 7 = x / 128 := by rw [Nat.shiftRight_eq_div_pow]
theorem shiftR8 (x : Nat) : x >>> 8 = x / 256 := by rw [Nat.shiftRight_eq_div_pow]
theorem shiftR9 (x : Nat) : x >>> 9 = x / 512 := by rw [Nat.shiftRight_eq_div_pow]
theorem shiftR10 (x : Nat) : x >>> 10 = x / 1024 := by rw [Nat.shiftRight_eq_div_pow]
theorem shiftR11 (x : Nat) : x >>> 11 = x / 2048 := by rw [Nat.shiftRight_eq_div_pow]
theorem shiftR12 (x : Nat) : x >>> 12 = x / 4096 := by rw [Nat.shiftRight_eq_div_pow]

/-! ## Helper lemmas: rounding -/

theorem round_nonneg_of_nonneg {x : ℚ} (h : 0 ≤ x) : 0 ≤ round x := by
  rw [round_eq]
  exact Int.le_floor.mpr (by push_cast; linarith)

theorem toNat_round_le {x : ℚ} {m : Nat} (h : x ≤ m) :
    (round x).toNat ≤ m := by
  have h1 : round x ≤ (m : ℤ) := by
    rw [round_eq]
    have hf : (⌊x + 1 / 2⌋ : ℚ) ≤ x + 1 / 2 := Int.floor_le _
    have h2 : (⌊x + 1 / 2⌋ : ℚ) < (m : ℚ) + 1 := by linarith
    exact Int.lt_add_one_iff.mp (by exact_mod_cast h2)
  omega

theorem cast_toNat_round {x : ℚ} (h : 0 ≤ x) :
    (((round x).toNat : ℕ) : ℚ) = ((round x : ℤ) : ℚ) := by
  have h0 := round_nonneg_of_nonneg h
  exact_mod_cast congrArg (fun z : ℤ => (z : ℚ)) (Int.toNat_of_nonneg h0)

theorem abs_round_sub {x : ℚ} : |((round x : ℤ) : ℚ) - x| ≤ 1 / 2 := by
  rw [abs_sub_comm]
  exact abs_sub_round x

/-! ## Helper lemmas: temperature packing -/

/-- Symbolic evaluation of the eight iterations of the packing loop of
`ProbeTemperatures::to_packed_bytes`. -/
theorem to_packed_bytes_eval (v : Fin 8 → Nat) :
    to_packed_bytes v = [
      (v 0 &&& 8191) % 256,
      (v 0 &&& 8191) >>> 8 % 256 ||| (v 1 &&& 8191) <<< 5 % 256,
      (v 1 &&& 8191) >>> 3 % 256,
      (v 1 &&& 8191) >>> 11 % 256 ||| (v 2 &&& 8191) <<< 2 % 256,
      (v 2 &&& 8191) >>> 6 % 256 ||| (v 3 &&& 8191) <<< 7 % 256,
      (v 3 &&& 8191) >>> 1 % 256,
      (v 3 &&& 8191) >>> 9 % 256 ||| (v 4 &&& 8191) <<< 4 % 256,
      (v 4 &&& 8191) >>> 4 % 256,
      (v 4 &&& 8191) >>> 12 % 256 ||| (v 5 &&& 8191) <<< 1 % 256,
      (v 5 &&& 8191) >>> 7 % 256 ||| (v 6 &&& 8191) <<< 6 % 256,
      (v 6 &&& 8191) >>> 2 % 256,
      (v 6 &&& 8191) >>> 10 % 256 ||| (v 7 &&& 8191) <<< 3 % 256,
      (v 7 &&& 8191) >>> 5 % 256 ] := by
  have hfr : List.finRange 8 =
      [⟨0, by norm_num⟩, ⟨1, by norm_num⟩, ⟨2, by norm_num⟩, ⟨3, by norm_num⟩,
       ⟨4, by norm_num⟩, ⟨5, by norm_num⟩, ⟨6, by norm_num⟩, ⟨7, by norm_num⟩] := by
    decide
  have hrep : List.replicate 13 (0 : Nat) = [0, 0, 0, 0, 0, 0, 0, 0, 0, 0, 0, 0, 0] := by
    decide
  rw [to_packed_bytes, hfr]
  simp only [List.foldl_cons, List.foldl_nil, packStep, Fin.val_mk, hrep,
    List.set_cons_zero, List.set_cons_succ, List.getD_cons_zero, List.getD_cons_succ,
    Nat.zero_or]
  norm_num
  and_intros <;> rfl

/-- Recovering the eight 13-bit values from thirteen bytes whose contents
are characterised arithmetically; the left sides of the conclusions are the
extractions performed by `ProbeTemperatures::from_packed_bytes`. -/
theorem unpack_recover
    (v0 v1 v2 v3 v4 v5 v6 v7 : Nat)
    (b0 b1 b2 b3 b4 b5 b6 b7 b8 b9 b10 b11 b12 : Nat)
    (hv0 : v0 < 8192) (hv1 : v1 < 8192) (hv2 : v2 < 8192) (hv3 : v3 < 8192)
    (hv4 : v4 < 8192) (hv5 : v5 < 8192) (hv6 : v6 < 8192) (hv7 : v7 < 8192)
    (hb0 : b0 = v0 % 256)
    (hb1 : b1 = v0 / 256 + v1 % 8 * 32)
    (hb2 : b2 = v1 / 8 % 256)
    (hb3 : b3 = v1 / 2048 + v2 % 64 * 4)
    (hb4 : b4 = v2 / 64 + v3 % 2 * 128)
    (hb5 : b5 = v3 / 2 % 256)
    (hb6 : b6 = v3 / 512 + v4 % 16 * 16)
    (hb7 : b7 = v4 / 16 % 256)
    (hb8 : b8 = v4 / 4096 + v5 % 128 * 2)
    (hb9 : b9 = v5 / 128 + v6 % 4 * 64)
    (hb10 : b10 = v6 / 4 % 256)
    (hb11 : b11 = v6 / 1024 + v7 % 32 * 8)
    (hb12 : b12 = v7 / 32 % 256) :
    ((b0 >>> 0 ||| b1 <<< 8 % 65536) &&& 8191 = v0) ∧
    ((b1 >>> 5 ||| b2 <<< 3 % 65536 ||| b3 <<< 11 % 65536) &&& 8191 = v1) ∧
    ((b3 >>> 2 ||| b4 <<< 6 % 65536) &&& 8191 = v2) ∧
    ((b4 >>> 7 ||| b5 <<< 1 % 65536 ||| b6 <<< 9 % 65536) &&& 8191 = v3) ∧
    ((b6 >>> 4 ||| b7 <<< 4 % 65536 ||| b8 <<< 12 % 65536) &&& 8191 = v4) ∧
    ((b8 >>> 1 ||| b9 <<< 7 % 65536) &&& 8191 = v5) ∧
    ((b9 >>> 6 ||| b10 <<< 2 % 65536 ||| b11 <<< 10 % 65536) &&& 8191 = v6) ∧
    ((b11 >>> 3 ||| b12 <<< 5 % 65536) &&& 8191 = v7) := by
  refine ⟨?_, ?_, ?_, ?_, ?_, ?_, ?_, ?_⟩
  · simp only [Nat.shiftRight_zero, shiftL8, andMask8191]
    rw [orEqAddOfMod' (k := 8) (a := b0) (b := b1 * 256 % 65536)
      (by omega) (by omega)]
    omega
  · simp only [shiftR5, shiftL3, shiftL11, andMask8191]
    rw [orEqAddOfMod' (k := 3) (a := b1 / 32) (b := b2 * 8 % 65536)
      (by omega) (by omega)]
    rw [orEqAddOfMod' (k := 11) (a := b1 / 32 + b2 * 8 % 65536)
      (b := b3 * 2048 % 65536) (by omega) (by omega)]
    omega
  · simp only [shiftR2, shiftL6, andMask8191]
    rw [orEqAddOfMod' (k := 6) (a := b3 / 4) (b := b4 * 64 % 65536)
      (by omega) (by omega)]
    omega
  · simp only [shiftR7, shiftL1, shiftL9, andMask8191]
    rw [orEqAddOfMod' (k := 1) (a := b4 / 128) (b := b5 * 2 % 65536)
      (by omega) (by omega)]
    rw [orEqAddOfMod' (k := 9) (a := b4 / 128 + b5 * 2 % 65536)
      (b := b6 * 512 % 65536) (by omega) (by omega)]
    omega
  · simp only [shiftR4, shiftL4, shiftL12, andMask8191]
    rw [orEqAddOfMod' (k := 4) (a := b6 / 16) (b := b7 * 16 % 65536)
      (by omega) (by omega)]
    rw [orEqAddOfMod' (k := 12) (a := b6 / 16 + b7 * 16 % 65536)
      (b := b8 * 4096 % 65536) (by omega) (by omega)]
    omega
  · simp only [shiftR1, shiftL7, andMask8191]
    rw [orEqAddOfMod' (k := 7) (a := b8 / 2) (b := b9 * 128 % 65536)
      (by omega) (by omega)]
    omega
  · simp only [shiftR6, shiftL2, shiftL10, andMask8191]
    rw [orEqAddOfMod' (k := 2) (a := b9 / 64) (b := b10 * 4 % 65536)
      (by omega) (by omega)]
    rw [orEqAddOfMod' (k := 10) (a := b9 / 64 + b10 * 4 % 65536)
      (b := b11 * 1024 % 65536) (by omega) (by omega)]
    omega
  · simp only [shiftR3, shiftL5, andMask8191]
    rw [orEqAddOfMod' (k := 5) (a := b11 / 8) (b := b12 * 32 % 65536)
      (by omega) (by omega)]
    omega

/-! ## Claim C10 -/

/-- Claim C10: for any eight 13-bit raw readings, packing with
`to_packed_bytes` and unpacking with `from_packed_bytes` returns exactly
the same eight raw values. -/
theorem packed_bytes_roundtrip (v : Fin 8 → Nat) (hv : ∀ i, v i < 8192) :
    ∃ w, from_packed_bytes (to_packed_bytes v) = some w ∧ ∀ i, w i = v i := by
  have h0 := hv 0
  have h1 := hv 1
  have h2 := hv 2
  have h3 := hv 3
  have h4 := hv 4
  have h5 := hv 5
  have h6 := hv 6
  have h7 := hv 7
  have H := unpack_recover (v 0) (v 1) (v 2) (v 3) (v 4) (v 5) (v 6) (v 7)
    ((v 0 &&& 8191) % 256)
    ((v 0 &&& 8191) >>> 8 % 256 ||| (v 1 &&& 8191) <<< 5 % 256)
    ((v 1 &&& 8191) >>> 3 % 256)
    ((v 1 &&& 8191) >>> 11 % 256 ||| (v 2 &&& 8191) <<< 2 % 256)
    ((v 2 &&& 8191) >>> 6 % 256 ||| (v 3 &&& 8191) <<< 7 % 256)
    ((v 3 &&& 8191) >>> 1 % 256)
    ((v 3 &&& 8191) >>> 9 % 256 ||| (v 4 &&& 8191) <<< 4 % 256)
    ((v 4 &&& 8191) >>> 4 % 256)
    ((v 4 &&& 8191) >>> 12 % 256 ||| (v 5 &&& 8191) <<< 1 % 256)
    ((v 5 &&& 8191) >>> 7 % 256 ||| (v 6 &&& 8191) <<< 6 % 256)
    ((v 6 &&& 8191) >>> 2 % 256)
    ((v 6 &&& 8191) >>> 10 % 256 ||| (v 7 &&& 8191) <<< 3 % 256)
    ((v 7 &&& 8191) >>> 5 % 256)
    h0 h1 h2 h3 h4 h5 h6 h7
    (by rw [andMask8191]; omega)
    (by simp only [andMask8191, shiftR8, shiftL5]
        rw [orEqAddOfMod' (k := 5) (a := v 0 % 8192 / 256 % 256)
          (b := v 1 % 8192 * 32 % 256) (by omega) (by omega)]
        omega)
    (by simp only [andMask8191, shiftR3]; omega)
    (by simp only [andMask8191, shiftR11, shiftL2]
        rw [orEqAddOfMod' (k := 2) (a := v 1 % 8192 / 2048 % 256)
          (b := v 2 % 8192 * 4 % 256) (by omega) (by omega)]
        omega)
    (by simp only [andMask8191, shiftR6, shiftL7]
        rw [orEqAddOfMod' (k := 7) (a := v 2 % 8192 / 64 % 256)
          (b := v 3 % 8192 * 128 % 256) (by omega) (by omega)]
        omega)
    (by simp only [andMask8191, shiftR1]; omega)
    (by simp only [andMask8191, shiftR9, shiftL4]
        rw [orEqAddOfMod' (k := 4) (a := v 3 % 8192 / 512 % 256)
          (b := v 4 % 8192 * 16 % 256) (by omega) (by omega)]
        omega)
    (by simp only [andMask8191, shiftR4]; omega)
    (by simp only [andMask8191, shiftR12, shiftL1]
        rw [orEqAddOfMod' (k := 1) (a := v 4 % 8192 / 4096 % 256)
          (b := v 5 % 8192 * 2 % 256) (by omega) (by omega)]
        omega)
    (by simp only [andMask8191, shiftR7, shiftL6]
        rw [orEqAddOfMod' (k := 6) (a := v 5 % 8192 / 128 % 256)
          (b := v 6 % 8192 * 64 % 256) (by omega) (by omega)]
        omega)
    (by simp only [andMask8191, shiftR2]; omega)
    (by simp only [andMask8191, shiftR10, shiftL3]
        rw [orEqAddOfMod' (k := 3) (a := v 6 % 8192 / 1024 % 256)
          (b := v 7 % 8192 * 8 % 256) (by omega) (by omega)]
        omega)
    (by simp only [andMask8191, shiftR5]; omega)
  refine ⟨fun i => unpackValue (to_packed_bytes v) i.val, ?_, ?_⟩
  · simp only [from_packed_bytes, to_packed_bytes_eval]
    rw [if_neg (by simp)]
  · intro i
    rw [to_packed_bytes_eval]
    fin_cases i
    · exact H.1
    · exact H.2.1
    · exact H.2.2.1
    · exact H.2.2.2.1
    · exact H.2.2.2.2.1
    · exact H.2.2.2.2.2.1
    · exact H.2.2.2.2.2.2.1
    · exact H.2.2.2.2.2.2.2

/-- Witness for C10 at a concrete reading set. -/
theorem packed_bytes_roundtrip_witness :
    ∃ w, from_packed_bytes (to_packed_bytes
        ![1000, 1500, 2000, 2500, 3000, 3500, 4000, 4500]) = some w ∧
      ∀ i, w i = ![1000, 1500, 2000, 2500, 3000, 3500, 4000, 4500] i :=
  packed_bytes_roundtrip _ (by decide)

/-! ## Claim C2 -/

/-- Claim C2: after an explicit `set_id` (resp. `set_color`) at time `T`, an
advertising or session-status update carrying a different id (resp. color)
applied at `T+2` (inside the 5-second grace period) leaves the locally set
value unchanged, while one applied at `T+6` (past the grace period)
overwrites it with the value carried by the update. -/
theorem grace_period_policy (s : ProbeState) (adv : AdvertisingData)
    (st : ProbeStatus) (r : Option Int) (T id color : Nat)
    (hid : adv.probe_id ≠ id) (hcol : adv.color ≠ color)
    (hid' : st.probe_id ≠ id) (hcol' : st.color ≠ color) :
    (update_from_advertising (set_id s id T) adv r (T + 2)).probe_id = id ∧
    (update_from_advertising (set_id s id T) adv r (T + 6)).probe_id = adv.probe_id ∧
    (update_from_advertising (set_color s color T) adv r (T + 2)).color = color ∧
    (update_from_advertising (set_color s color T) adv r (T + 6)).color = adv.color ∧
    (update_from_status (set_id s id T) st (T + 2)).probe_id = id ∧
    (update_from_status (set_id s id T) st (T + 6)).probe_id = st.probe_id ∧
    (update_from_status (set_color s color T) st (T + 2)).color = color ∧
    (update_from_status (set_color s color T) st (T + 6)).color = st.color := by
  refine ⟨?_, ?_, ?_, ?_, ?_, ?_, ?_, ?_⟩ <;>
    simp [update_from_advertising, update_from_status, set_id, set_color,
      in_grace_period, ID_COLOR_GRACE_PERIOD, Nat.add_sub_cancel_left]

/-- Witness for C2 at a concrete state, update and time. -/
theorem grace_period_policy_witness :
    (update_from_advertising
        (set_id
          { serial_number := 1, probe_id := 1, color := 0, probe_id_set_at := none
            color_set_at := none, temperatures := fun _ => 0x1FFF
            virtual_temperatures := ⟨none, none, none, ⟨0, 3, 4⟩⟩
            prediction := none, battery_status := 0, mode := 0, overheating := 0
            min_sequence := 0, max_sequence := 0, food_safe_data := none
            rssi := none, last_update := 0, thermometer_preferences := none
            alarm_config := none }
          4 100)
        { product_type := 1, serial_number := 1, temperatures := fun _ => 0x1FFF
          mode := 0, probe_id := 7, color := 2, battery_status := 0
          virtual_temperatures := ⟨none, none, none, ⟨0, 3, 4⟩⟩
          overheating_sensors := 0 }
        none 102).probe_id = 4 := by
  exact (grace_period_policy _ _
    { min_sequence_number := 0, max_sequence_number := 0
      temperatures := fun _ => 0x1FFF, mode := 0, probe_id := 7, color := 2
      battery_status := 0, virtual_temperatures := ⟨none, none, none, ⟨0, 3, 4⟩⟩
      prediction := none, overheating := 0, thermometer_preferences := none
      alarm_config := none, food_safe_config := none, food_safe_status := none }
    none 100 4 1 (by decide) (by decide) (by decide) (by decide)).1

/-! ## Claim C6 -/

/-- Claim C6: raw reading 400 decodes to 0.0 °C, raw reading 2400 decodes
to 100.0 °C, the sentinel 0x1FFF decodes to an absent reading, and the
encoder can never produce the sentinel, so decoding an encoded value is
never blocked by it. -/
theorem raw_reading_concrete_values :
    rawTemp_to_celsius 400 = some 0 ∧
    rawTemp_to_celsius 2400 = some 100 ∧
    rawTemp_to_celsius 0x1FFF = none ∧
    (∀ c : ℚ, rawTemp_from_celsius c ≠ 0x1FFF) := by
  refine ⟨by norm_num [rawTemp_to_celsius], by norm_num [rawTemp_to_celsius],
    by norm_num [rawTemp_to_celsius], fun c => ?_⟩
  have h : rawTemp_from_celsius c ≤ 0x1FFE := min_le_right _ _
  omega

/-! ## Claim C7 -/

/-- Claim C7: a session-status update whose payload carries no food-safety
section (neither config nor status) leaves a previously known
`food_safe_data` untouched, in both the live notification handler and
`update_from_status`. -/
theorem absent_food_safety_section_preserved (s : ProbeState)
    (status : ProbeStatus) (now : Nat)
    (hc : status.food_safe_config = none) (hs : status.food_safe_status = none) :
    (apply_status_notification s status now).food_safe_data = s.food_safe_data ∧
    (update_from_status s status now).food_safe_data = s.food_safe_data := by
  constructor
  · simp only [apply_status_notification, hc, hs]
  · simp only [update_from_status]

/-- Witness for C7: a state that already holds food-safety data keeps it
across a status update lacking the food-safety section. -/
theorem absent_food_safety_section_preserved_witness :
    (apply_status_notification
        { serial_number := 1, probe_id := 1, color := 0, probe_id_set_at := none
          color_set_at := none, temperatures := fun _ => 0x1FFF
          virtual_temperatures := ⟨none, none, none, ⟨0, 3, 4⟩⟩
          prediction := none, battery_status := 0, mode := 0, overheating := 0
          min_sequence := 0, max_sequence := 0
          food_safe_data := some (FoodSafeData.with_config
            ⟨.Integrated, 0, .ServedImmediately, 54.4, 5.5, 70, 1, 7⟩)
          rssi := none, last_update := 0, thermometer_preferences := none
          alarm_config := none }
        { min_sequence_number := 3, max_sequence_number := 9
          temperatures := fun _ => 400, mode := 0, probe_id := 2, color := 1
          battery_status := 0, virtual_temperatures := ⟨none, none, none, ⟨0, 3, 4⟩⟩
          prediction := none, overheating := 0, thermometer_preferences := none
          alarm_config := none, food_safe_config := none, food_safe_status := none }
        50).food_safe_data =
      some (FoodSafeData.with_config
        ⟨.Integrated, 0, .ServedImmediately, 54.4, 5.5, 70, 1, 7⟩) := by
  exact (absent_food_safety_section_preserved _ _ 50 rfl rfl).1

/-! ## Claim C9 -/

/-- Counterexample for C9: a prediction whose setpoint differs from the
heat-start temperature by 1/2000 (0.0005 °C) still yields an absent
progress, because the code tests `|setpoint - heat_start| < 0.001` rather
than equality. -/
theorem temperature_progress_cex :
    temperature_progress
        { state := .Predicting, mode := .TimeToRemoval, prediction_type := .Removal
          set_point_temperature := 63 + 1 / 2000, heat_start_temperature := 63
          prediction_value_seconds := 0, estimated_core_temperature := 63
          seconds_since_prediction_start := 0, core_sensor_index := 0 } = none ∧
      (63 + 1 / 2000 : ℚ) ≠ 63 := by
  constructor
  · norm_num [temperature_progress, abs_of_nonneg]
  · norm_num

/-- Claim C9 (amended): prediction progress is absent exactly when
`|setpoint - heat_start| < 0.001` (rather than exactly on equality), and
otherwise equals `(estimated_core - heat_start) / (setpoint - heat_start)
* 100` clamped to `[0, 100]`. -/
theorem temperature_progress_formula (p : PredictionInfo) :
    (temperature_progress p = none ↔
      |p.set_point_temperature - p.heat_start_temperature| < 0.001) ∧
    (0.001 ≤ |p.set_point_temperature - p.heat_start_temperature| →
      temperature_progress p =
        some (min (max ((p.estimated_core_temperature - p.heat_start_temperature) /
          (p.set_point_temperature - p.heat_start_temperature) * 100) 0) 100)) := by
  constructor
  · simp only [temperature_progress]
    split_ifs with h
    · simpa using h
    · simpa using h
  · intro h
    simp only [temperature_progress]
    split_ifs with h'
    · linarith
    · rfl

/-- Witness for C9's amended theorem at a concrete prediction
(progress 50 % of the way from 20 °C to 63 °C). -/
theorem temperature_progress_formula_witness :
    (0.001 : ℚ) ≤ |(63 : ℚ) - 20| ∧
      temperature_progress
          { state := .Predicting, mode := .TimeToRemoval, prediction_type := .Removal
            set_point_temperature := 63, heat_start_temperature := 20
            prediction_value_seconds := 0, estimated_core_temperature := 41.5
            seconds_since_prediction_start := 0, core_sensor_index := 0 } =
        some 50 := by
  refine ⟨by norm_num, ?_⟩
  rw [(temperature_progress_formula _).2 (by norm_num)]
  norm_num

/-! ## Helper lemmas: fixed-point encoders -/

theorem round_decode_close {x s : ℚ} (hs : 0 ≤ s) :
    |((round x : ℤ) : ℚ) * s - x * s| ≤ s / 2 := by
  have h := abs_round_sub (x := x)
  calc |((round x : ℤ) : ℚ) * s - x * s| = |((round x : ℤ) : ℚ) - x| * s := by
        rw [← sub_mul, abs_mul, abs_of_nonneg hs]
    _ ≤ 1 / 2 * s := mul_le_mul_of_nonneg_right h hs
    _ = s / 2 := by ring

/-- In the valid range the alarm-threshold encoder is exactly the rounded
raw value, and that value fits in 13 bits. -/
theorem alarmTempRaw_in_range {t : ℚ} (h0 : -20 ≤ t) (h1 : t ≤ 799.1) :
    alarmTempRaw t = (round ((t + 20) / 0.1)).toNat ∧
      (round ((t + 20) / 0.1)).toNat ≤ 8191 := by
  have hb : (round ((t + 20) / 0.1)).toNat ≤ 8191 := by
    apply toNat_round_le
    rw [div_le_iff₀ (by norm_num)]
    push_cast
    linarith
  exact ⟨by simp only [alarmTempRaw]; omega, hb⟩

/-- In the valid range `RawTemperature::from_celsius` is exactly the
rounded raw value, and that value is at most `MAX_VALUE`. -/
theorem rawTempEnc_in_range {c : ℚ} (h0 : -20 ≤ c) (h1 : c ≤ 389.5) :
    rawTemp_from_celsius c = (round ((c + 20) * 20)).toNat ∧
      (round ((c + 20) * 20)).toNat ≤ 8190 := by
  have hb : (round ((c + 20) * 20)).toNat ≤ 8190 := by
    apply toNat_round_le
    push_cast
    linarith
  exact ⟨by simp only [rawTemp_from_celsius]; omega, hb⟩

/-- In the valid range the food-safe 13-bit encoder is exactly the rounded
raw value (the mask does not kick in). -/
theorem encode13_in_range {v : ℚ} (h0 : 0 ≤ v) (h1 : v ≤ 409.5) :
    encode_13bit v = (round (v / 0.05)).toNat ∧
      (round (v / 0.05)).toNat ≤ 8190 := by
  have hb : (round (v / 0.05)).toNat ≤ 8190 := by
    apply toNat_round_le
    rw [div_le_iff₀ (by norm_num)]
    push_cast
    linarith
  exact ⟨by simp only [encode_13bit, andMask8191]; omega, hb⟩

/-- In the valid range the food-safe 8-bit encoder is exactly the rounded
raw value. -/
theorem encode8_in_range {v : ℚ} (h0 : 0 ≤ v) (h1 : v ≤ 25.5) :
    encode_8bit v = (round (v / 0.1)).toNat ∧
      (round (v / 0.1)).toNat ≤ 255 := by
  have hb : (round (v / 0.1)).toNat ≤ 255 := by
    apply toNat_round_le
    rw [div_le_iff₀ (by norm_num)]
    push_cast
    linarith
  exact ⟨by simp only [encode_8bit]; omega, hb⟩

/-- Decoding the in-range 13-bit food-safe encoding lands within 0.1 of
the input. -/
theorem decode13_close {v : ℚ} (h0 : 0 ≤ v) (h1 : v ≤ 409.5) :
    |decode_13bit (encode_13bit v) - v| ≤ 0.1 := by
  obtain ⟨he, hb⟩ := encode13_in_range h0 h1
  simp only [decode_13bit, andMask8191]
  rw [he, Nat.mod_eq_of_lt (by omega)]
  have hx0 : 0 ≤ v / 0.05 := div_nonneg h0 (by norm_num)
  rw [cast_toNat_round hx0]
  set y := v / 0.05 with hy
  have hv : v = y * 0.05 := by rw [hy]; field_simp
  rw [hv]
  calc |((round y : ℤ) : ℚ) * 0.05 - y * 0.05| ≤ 0.05 / 2 :=
        round_decode_close (by norm_num)
    _ ≤ 0.1 := by norm_num

/-- Decoding the in-range 8-bit food-safe encoding lands within 0.1 of
the input. -/
theorem decode8_close {v : ℚ} (h0 : 0 ≤ v) (h1 : v ≤ 25.5) :
    |decode_8bit (encode_8bit v) - v| ≤ 0.1 := by
  obtain ⟨he, hb⟩ := encode8_in_range h0 h1
  simp only [decode_8bit]
  rw [he]
  have hx0 : 0 ≤ v / 0.1 := div_nonneg h0 (by norm_num)
  rw [cast_toNat_round hx0]
  set y := v / 0.1 with hy
  have hv : v = y * 0.1 := by rw [hy]; field_simp
  rw [hv]
  calc |((round y : ℤ) : ℚ) * 0.1 - y * 0.1| ≤ 0.1 / 2 :=
        round_decode_close (by norm_num)
    _ ≤ 0.1 := by norm_num

/-! ## Claim C5 -/

/-- The flag bits assembled by `AlarmStatus::to_bytes` occupy only the low
three bits and therefore combine with the shifted threshold additively. -/
theorem alarmFlags_or (as atr aal : Bool) (X : Nat) :
    (((if aal then
        (if atr then (if as then 0 ||| 1 else 0) ||| 2 else if as then 0 ||| 1 else 0) ||| 4
      else
        if atr then (if as then 0 ||| 1 else 0) ||| 2 else if as then 0 ||| 1 else 0) : Nat) |||
      X * 8 =
    (if aal then
        (if atr then (if as then 0 ||| 1 else 0) ||| 2 else if as then 0 ||| 1 else 0) ||| 4
      else
        if atr then (if as then 0 ||| 1 else 0) ||| 2 else if as then 0 ||| 1 else 0) + X * 8) ∧
    ((if aal then
        (if atr then (if as then 0 ||| 1 else 0) ||| 2 else if as then 0 ||| 1 else 0) ||| 4
      else
        if atr then (if as then 0 ||| 1 else 0) ||| 2 else if as then 0 ||| 1 else 0) : Nat) < 8 := by
  constructor
  · cases as <;> cases atr <;> cases aal <;>
      exact orEqAddOfMod' (k := 3) (by decide) (by omega)
  · cases as <;> cases atr <;> cases aal <;> decide

/-! ## Claim C4 -/

/-- Claim C4: each fixed-point temperature codec round-trips within
0.1 degrees over its representable range: `RawTemperature`
(`from_celsius` then `to_celsius`), `AlarmStatus` (`to_bytes` then
`from_bytes`), and the `FoodSafeConfig` scalars (`to_bytes` then
`from_bytes`). -/
theorem fixed_point_roundtrip :
    (∀ c : ℚ, -20 ≤ c → c ≤ 389.5 →
      ∃ q, rawTemp_to_celsius (rawTemp_from_celsius c) = some q ∧ |q - c| ≤ 0.1) ∧
    (∀ a : AlarmStatus, -20 ≤ a.temperature → a.temperature ≤ 799.1 →
      ∃ a', alarmStatus_from_bytes (alarmStatus_to_bytes a) = some a' ∧
        |a'.temperature - a.temperature| ≤ 0.1) ∧
    (∀ cfg : FoodSafeConfig,
      0 ≤ cfg.threshold_temperature → cfg.threshold_temperature ≤ 409.5 →
      0 ≤ cfg.z_value → cfg.z_value ≤ 409.5 →
      0 ≤ cfg.reference_temperature → cfg.reference_temperature ≤ 409.5 →
      0 ≤ cfg.d_value_at_reference → cfg.d_value_at_reference ≤ 409.5 →
      0 ≤ cfg.target_log_reduction → cfg.target_log_reduction ≤ 25.5 →
      ∃ cfg', foodSafeConfig_from_bytes (foodSafeConfig_to_bytes cfg) = some cfg' ∧
        |cfg'.threshold_temperature - cfg.threshold_temperature| ≤ 0.1 ∧
        |cfg'.z_value - cfg.z_value| ≤ 0.1 ∧
        |cfg'.reference_temperature - cfg.reference_temperature| ≤ 0.1 ∧
        |cfg'.d_value_at_reference - cfg.d_value_at_reference| ≤ 0.1 ∧
        |cfg'.target_log_reduction - cfg.target_log_reduction| ≤ 0.1) := by
  refine ⟨?_, ?_, ?_⟩
  · intro c h0 h1
    obtain ⟨he, hb⟩ := rawTempEnc_in_range h0 h1
    rw [he]
    have hne : (round ((c + 20) * 20)).toNat ≠ 0x1FFF := by omega
    refine ⟨_, by rw [rawTemp_to_celsius, if_neg hne], ?_⟩
    have hx0 : 0 ≤ (c + 20) * 20 := by nlinarith
    rw [cast_toNat_round hx0]
    set y := (c + 20) * 20 with hy
    have hc : c = y * 0.05 - 20 := by rw [hy]; ring
    rw [hc]
    have e : ((round y : ℤ) : ℚ) * 0.05 - 20 - (y * 0.05 - 20) =
        ((round y : ℤ) : ℚ) * 0.05 - y * 0.05 := by ring
    rw [e]
    calc |((round y : ℤ) : ℚ) * 0.05 - y * 0.05| ≤ 0.05 / 2 :=
          round_decode_close (by norm_num)
      _ ≤ 0.1 := by norm_num
  · intro a h0 h1
    obtain ⟨he, hb⟩ := alarmTempRaw_in_range h0 h1
    have hle : alarmTempRaw a.temperature ≤ 0x1FFF := min_le_right _ _
    obtain ⟨hOr, hLt⟩ :=
      alarmFlags_or a.set a.tripped a.alarming (alarmTempRaw a.temperature)
    have hp : alarmPacked a =
        (if a.alarming then
          (if a.tripped then (if a.set then 0 ||| 1 else 0) ||| 2
            else if a.set then 0 ||| 1 else 0) ||| 4
        else
          if a.tripped then (if a.set then 0 ||| 1 else 0) ||| 2
            else if a.set then 0 ||| 1 else 0) + alarmTempRaw a.temperature * 8 := by
      simp only [alarmPacked, shiftL3, andMask8191,
        Nat.mod_eq_of_lt (by omega : alarmTempRaw a.temperature < 8192)]
      exact hOr
    simp only [alarmStatus_to_bytes, alarmStatus_from_bytes, List.length_cons,
      List.length_nil, List.getD_cons_zero, List.getD_cons_succ]
    rw [if_neg (by omega)]
    refine ⟨_, rfl, ?_⟩
    dsimp only
    have hpacked : alarmPacked a % 256 + 256 * (alarmPacked a / 256) = alarmPacked a := by
      omega
    rw [hpacked, shiftR3, andMask8191]
    have hraw : alarmPacked a / 8 % 8192 = alarmTempRaw a.temperature := by omega
    rw [hraw, he]
    have hx0 : 0 ≤ (a.temperature + 20) / 0.1 :=
      div_nonneg (by linarith) (by norm_num)
    rw [cast_toNat_round hx0]
    set y := (a.temperature + 20) / 0.1 with hy
    have ht : a.temperature = y * 0.1 - 20 := by rw [hy]; field_simp
    rw [ht]
    have e : ((round y : ℤ) : ℚ) * 0.1 - 20 - (y * 0.1 - 20) =
        ((round y : ℤ) : ℚ) * 0.1 - y * 0.1 := by ring
    rw [e]
    calc |((round y : ℤ) : ℚ) * 0.1 - y * 0.1| ≤ 0.1 / 2 :=
          round_decode_close (by norm_num)
      _ ≤ 0.1 := by norm_num
  · intro cfg ht0 ht1 hz0 hz1 hr0 hr1 hd0 hd1 hl0 hl1
    simp only [foodSafeConfig_to_bytes, foodSafeConfig_from_bytes, List.length_cons,
      List.length_nil, List.getD_cons_zero, List.getD_cons_succ]
    rw [if_neg (by omega)]
    set th := encode_13bit cfg.threshold_temperature with hthdef
    set z := encode_13bit cfg.z_value with hzdef
    set rf := encode_13bit cfg.reference_temperature with hrfdef
    set d := encode_13bit cfg.d_value_at_reference with hddef
    set lg := encode_8bit cfg.target_log_reduction with hlgdef
    have hthb : th < 8192 := by rw [hthdef]; simp only [encode_13bit, andMask8191]; omega
    have hzb : z < 8192 := by rw [hzdef]; simp only [encode_13bit, andMask8191]; omega
    have hrfb : rf < 8192 := by rw [hrfdef]; simp only [encode_13bit, andMask8191]; omega
    have hdb : d < 8192 := by rw [hddef]; simp only [encode_13bit, andMask8191]; omega
    have hlgb : lg < 256 := by rw [hlgdef]; simp only [encode_8bit]; omega
    have hb3 : ((th >>> 8) &&& 0x1F) ||| (((z &&& 0x07) <<< 5) % 256) =
        th / 256 % 32 + z % 8 * 32 := by
      rw [shiftR8, andMask31, andMask7, shiftL5,
        orEqAddOfMod' (k := 5) (a := th / 256 % 32) (b := z % 8 * 32 % 256)
          (by omega) (by omega)]
      omega
    have hb5 : ((z >>> 11) &&& 0x03) ||| (((rf &&& 0x3F) <<< 2) % 256) =
        z / 2048 % 4 + rf % 64 * 4 := by
      rw [shiftR11, andMask3, andMask63, shiftL2,
        orEqAddOfMod' (k := 2) (a := z / 2048 % 4) (b := rf % 64 * 4 % 256)
          (by omega) (by omega)]
      omega
    have hb6 : ((rf >>> 6) &&& 0x7F) ||| (((d &&& 0x01) <<< 7) % 256) =
        rf / 64 % 128 + d % 2 * 128 := by
      rw [shiftR6, andMask127, andMask1, shiftL7,
        orEqAddOfMod' (k := 7) (a := rf / 64 % 128) (b := d % 2 * 128 % 256)
          (by omega) (by omega)]
      omega
    have hb8 : ((d >>> 9) &&& 0x0F) ||| (((lg &&& 0x0F) <<< 4) % 256) =
        d / 512 % 16 + lg % 16 * 16 := by
      simp only [shiftR9, andMask15, shiftL4]
      rw [orEqAddOfMod' (k := 4) (a := d / 512 % 16) (b := lg % 16 * 16 % 256)
          (by omega) (by omega)]
      omega
    rw [hb3, hb5, hb6, hb8]
    refine ⟨_, rfl, ?_, ?_, ?_, ?_, ?_⟩
    · dsimp only
      have hrec : (th % 256) ||| (((th / 256 % 32 + z % 8 * 32) &&& 0x1F) <<< 8) = th := by
        rw [andMask31, shiftL8,
          orEqAddOfMod' (k := 8) (a := th % 256)
            (b := (th / 256 % 32 + z % 8 * 32) % 32 * 256) (by omega) (by omega)]
        omega
      rw [hrec]
      rw [hthdef]
      exact decode13_close ht0 ht1
    · dsimp only
      have h1 : ((th / 256 % 32 + z % 8 * 32) >>> 5) ||| (((z >>> 3) &&& 0xFF) <<< 3) =
          (th / 256 % 32 + z % 8 * 32) / 32 + z / 8 % 256 * 8 := by
        rw [shiftR5, shiftR3, andMask255, shiftL3,
          orEqAddOfMod' (k := 3) (a := (th / 256 % 32 + z % 8 * 32) / 32)
            (b := z / 8 % 256 * 8) (by omega) (by omega)]
      have hrec : ((th / 256 % 32 + z % 8 * 32) / 32 + z / 8 % 256 * 8) |||
          (((z / 2048 % 4 + rf % 64 * 4) &&& 0x03) <<< 11) = z := by
        rw [andMask3, shiftL11,
          orEqAddOfMod' (k := 11)
            (a := (th / 256 % 32 + z % 8 * 32) / 32 + z / 8 % 256 * 8)
            (b := (z / 2048 % 4 + rf % 64 * 4) % 4 * 2048) (by omega) (by omega)]
        omega
      rw [h1, hrec]
      rw [hzdef]
      exact decode13_close hz0 hz1
    · dsimp only
      have hrec : ((z / 2048 % 4 + rf % 64 * 4) >>> 2) |||
          (((rf / 64 % 128 + d % 2 * 128) &&& 0x7F) <<< 6) = rf := by
        rw [shiftR2, andMask127, shiftL6,
          orEqAddOfMod' (k := 6) (a := (z / 2048 % 4 + rf % 64 * 4) / 4)
            (b := (rf / 64 % 128 + d % 2 * 128) % 128 * 64) (by omega) (by omega)]
        omega
      rw [hrec]
      rw [hrfdef]
      exact decode13_close hr0 hr1
    · dsimp only
      have h1 : ((rf / 64 % 128 + d % 2 * 128) >>> 7) ||| (((d >>> 1) &&& 0xFF) <<< 1) =
          (rf / 64 % 128 + d % 2 * 128) / 128 + d / 2 % 256 * 2 := by
        rw [shiftR7, shiftR1, andMask255, shiftL1,
          orEqAddOfMod' (k := 1) (a := (rf / 64 % 128 + d % 2 * 128) / 128)
            (b := d / 2 % 256 * 2) (by omega) (by omega)]
      have hrec : ((rf / 64 % 128 + d % 2 * 128) / 128 + d / 2 % 256 * 2) |||
          (((d / 512 % 16 + lg % 16 * 16) &&& 0x0F) <<< 9) = d := by
        rw [andMask15, shiftL9,
          orEqAddOfMod' (k := 9)
            (a := (rf / 64 % 128 + d % 2 * 128) / 128 + d / 2 % 256 * 2)
            (b := (d / 512 % 16 + lg % 16 * 16) % 16 * 512) (by omega) (by omega)]
        omega
      rw [h1, hrec]
      rw [hddef]
      exact decode13_close hd0 hd1
    · dsimp only
      have hrec : ((d / 512 % 16 + lg % 16 * 16) >>> 4) |||
          ((((lg >>> 4) &&& 0x0F) &&& 0x0F) <<< 4) = lg := by
        simp only [shiftR4, andMask15, shiftL4]
        rw [orEqAddOfMod' (k := 4) (a := (d / 512 % 16 + lg % 16 * 16) / 16)
            (b := lg / 16 % 16 % 16 * 16) (by omega) (by omega)]
        omega
      rw [hrec]
      rw [hlgdef]
      exact decode8_close hl0 hl1

/-- Witness for C4 at concrete inputs: 63 °C through the raw-temperature
codec, an enabled 63 °C alarm through the alarm codec, and an integrated
poultry configuration through the food-safe codec. -/
theorem fixed_point_roundtrip_witness :
    (∃ q, rawTemp_to_celsius (rawTemp_from_celsius 63) = some q ∧ |q - 63| ≤ 0.1) ∧
    (∃ a', alarmStatus_from_bytes
        (alarmStatus_to_bytes ⟨true, false, true, 63⟩) = some a' ∧
        |a'.temperature - (⟨true, false, true, 63⟩ : AlarmStatus).temperature| ≤ 0.1) ∧
    (∃ cfg', foodSafeConfig_from_bytes (foodSafeConfig_to_bytes
        ⟨.Integrated, 0, .ServedImmediately, 54.4, 5.5, 70, 1, 7⟩) = some cfg' ∧
      |cfg'.threshold_temperature - 54.4| ≤ 0.1 ∧
      |cfg'.z_value - 5.5| ≤ 0.1 ∧
      |cfg'.reference_temperature - 70| ≤ 0.1 ∧
      |cfg'.d_value_at_reference - 1| ≤ 0.1 ∧
      |cfg'.target_log_reduction - 7| ≤ 0.1) := by
  refine ⟨fixed_point_roundtrip.1 63 (by norm_num) (by norm_num),
    fixed_point_roundtrip.2.1 ⟨true, false, true, 63⟩ (by norm_num) (by norm_num),
    fixed_point_roundtrip.2.2 ⟨.Integrated, 0, .ServedImmediately, 54.4, 5.5, 70, 1, 7⟩
      (by norm_num) (by norm_num) (by norm_num) (by norm_num) (by norm_num)
      (by norm_num) (by norm_num) (by norm_num) (by norm_num) (by norm_num)⟩


/-- Claim C3: a buffer whose sync bytes are not `0xCA 0xFE` is rejected with
`InvalidData` before any CRC comparison (the error is never `CrcMismatch`),
and when sync and length are valid but the stored CRC differs from the CRC
computed over `[type, length, payload]`, parsing returns the distinct
`CrcMismatch` error carrying the computed (expected) and stored (received)
values. -/
theorem uart_parse_sync_then_crc (data : List Nat) :
    ((data.getD 0 0 ≠ 0xCA ∨ data.getD 1 0 ≠ 0xFE) →
      uartMessage_parse data = .error .invalidData) ∧
    (data.getD 0 0 = 0xCA → data.getD 1 0 = 0xFE →
      uartHeaderSize + data.getD 5 0 ≤ data.length →
      data.getD 2 0 + 256 * data.getD 3 0 ≠
        calculate_crc (data.getD 4 0 :: data.getD 5 0 ::
          (data.drop 6).take (data.getD 5 0)) →
      uartMessage_parse data =
        .error (.crcMismatch
          (calculate_crc (data.getD 4 0 :: data.getD 5 0 ::
            (data.drop 6).take (data.getD 5 0)))
          (data.getD 2 0 + 256 * data.getD 3 0))) := by
  constructor
  · intro hsync
    simp only [uartMessage_parse, uartHeader_parse]
    split_ifs with h1 h2 h3 <;> simp_all
  · intro h0 h1 hlen hcrc
    simp only [uartHeaderSize] at hlen
    have hlen6 : ¬ data.length < uartHeaderSize := by
      simp only [uartHeaderSize]; omega
    have hh : uartHeader_parse data =
        .ok ⟨uartMessageType_from_raw (data.getD 4 0), data.getD 5 0⟩ := by
      unfold uartHeader_parse
      rw [if_neg hlen6,
        if_neg (fun hcon => hcon.elim (fun hx => hx h0) (fun hx => hx h1))]
    unfold uartMessage_parse
    rw [if_neg hlen6, hh]
    dsimp only [uartHeaderSize]
    rw [if_neg (by omega), if_pos hcrc]

/-- Witness for C3: a wrong-sync buffer is `InvalidData`, and a good-sync
zero-CRC buffer is reported as a `CrcMismatch` with both values. -/
theorem uart_parse_sync_then_crc_witness :
    uartMessage_parse [0x00, 0x01, 0, 0, 0x01, 0x00] = .error .invalidData ∧
      uartMessage_parse [0xCA, 0xFE, 0, 0, 0x01, 0x00] =
        .error (.crcMismatch (calculate_crc [0x01, 0x00]) 0) := by
  constructor
  · exact (uart_parse_sync_then_crc _).1 (by decide)
  · exact (uart_parse_sync_then_crc [0xCA, 0xFE, 0, 0, 0x01, 0x00]).2
      (by decide) (by decide) (by decide) (by decide)

/-! ## Claim C8 -/

/-- Counterexample for C8: a selection byte whose 3-bit core index is 6
yields an absent core value even though the selected physical sensor
(index 6, inside 0-7) holds a perfectly valid reading of 400 — so "None iff
the selected reading is the invalid sentinel" fails as stated. -/
theorem virtual_core_none_cex :
    (compute_virtual_temps (fun _ => 400) 6).core = none ∧
      (virtualSelection_from_byte 6).core_sensor = 6 ∧
      sensorAt (fun _ => 400) (virtualSelection_from_byte 6).core_sensor ≠ 0x1FFF := by
  refine ⟨by decide, by decide, by decide⟩

/-- Claim C8 (amended): the surface and ambient values are `None` exactly
when the selected reading is the invalid sentinel; the core value is `None`
exactly when the 3-bit core index exceeds 5 (the code guards `core < 6`,
not `core < 8`) or the selected reading is the sentinel. The selection
decodes the core index directly (sensors 1-6 for values 0-5), the 2-bit
surface offset plus 3 (sensors 4-7) and the 2-bit ambient offset plus 4
(sensors 5-8); no decoded index can leave 0-7, and an out-of-range core
index yields an absent value rather than an error. -/
theorem virtual_temps_absent_iff (temps : Fin 8 → Nat) (byte : Nat) :
    ((compute_virtual_temps temps byte).core = none ↔
      6 ≤ (virtualSelection_from_byte byte).core_sensor ∨
        sensorAt temps (virtualSelection_from_byte byte).core_sensor = 0x1FFF) ∧
    ((compute_virtual_temps temps byte).surface = none ↔
      sensorAt temps (virtualSelection_from_byte byte).surface_sensor = 0x1FFF) ∧
    ((compute_virtual_temps temps byte).ambient = none ↔
      sensorAt temps (virtualSelection_from_byte byte).ambient_sensor = 0x1FFF) ∧
    (virtualSelection_from_byte byte).core_sensor < 8 ∧
    3 ≤ (virtualSelection_from_byte byte).surface_sensor ∧
    (virtualSelection_from_byte byte).surface_sensor < 7 ∧
    4 ≤ (virtualSelection_from_byte byte).ambient_sensor ∧
    (virtualSelection_from_byte byte).ambient_sensor < 8 := by
  have hcore : byte &&& 0x07 < 8 := by
    have := Nat.and_le_right (n := byte) (m := 0x07); omega
  have hsurf : (byte >>> 3) &&& 0x03 < 4 := by
    have := Nat.and_le_right (n := byte >>> 3) (m := 0x03); omega
  have hamb : (byte >>> 5) &&& 0x03 < 4 := by
    have := Nat.and_le_right (n := byte >>> 5) (m := 0x03); omega
  refine ⟨?_, ?_, ?_, hcore, by simp [virtualSelection_from_byte],
    by simp only [virtualSelection_from_byte]; omega,
    by simp [virtualSelection_from_byte],
    by simp only [virtualSelection_from_byte]; omega⟩
  · simp only [compute_virtual_temps, virtualSelection_from_byte, sensorAt,
      rawTemp_to_celsius]
    split_ifs with h h' <;> simp_all <;> omega
  · simp only [compute_virtual_temps, virtualSelection_from_byte, sensorAt,
      rawTemp_to_celsius]
    split_ifs with h h' <;> simp_all <;> omega
  · simp only [compute_virtual_temps, virtualSelection_from_byte, sensorAt,
      rawTemp_to_celsius]
    split_ifs with h h' <;> simp_all <;> omega

/-! ## Helper lemmas: CRC -/

theorem xor_lt_65536 {a b : Nat} (ha : a < 65536) (hb : b < 65536) :
    a ^^^ b < 65536 := by
  have h := Nat.xor_lt_two_pow (x := a) (y := b) (n := 16) (by omega) (by omega)
  omega

theorem xor_left_cancel' {a b c : Nat} (h : a ^^^ b = a ^^^ c) : b = c := by
  have h2 := congrArg (fun x => a ^^^ x) h
  simpa [← Nat.xor_assoc, Nat.xor_self, Nat.zero_xor] using h2

theorem xor_right_cancel' {a b c : Nat} (h : b ^^^ a = c ^^^ a) : b = c := by
  rw [Nat.xor_comm b a, Nat.xor_comm c a] at h
  exact xor_left_cancel' h

theorem xor_pow_ne (x j : Nat) : x ^^^ 1 <<< j ≠ x := by
  intro h
  have h0 : x ^^^ 1 <<< j = x ^^^ 0 := by simpa using h
  have h1 : 1 <<< j = 0 := xor_left_cancel' h0
  rw [Nat.one_shiftLeft] at h1
  exact (Nat.two_pow_pos j).ne' h1

theorem crcStep_lt (c : Nat) : crcStep c < 65536 := by
  rw [crcStep]
  split_ifs <;> exact Nat.mod_lt _ (by norm_num)

theorem crcStep_cond (c : Nat) : (c &&& 0x8000 ≠ 0) ↔ c.testBit 15 := by
  rw [show (0x8000 : Nat) = 2 ^ 15 by norm_num, Nat.and_two_pow]
  cases h : c.testBit 15 <;> simp

theorem crcStep_eq (c : Nat) :
    crcStep c = ((c <<< 1) ^^^ (if c.testBit 15 then 0x1021 else 0)) % 65536 := by
  rw [crcStep]
  by_cases h : c.testBit 15
  · rw [if_pos ((crcStep_cond c).mpr h), if_pos h]
  · rw [if_neg (fun hc => h ((crcStep_cond c).mp hc)), if_neg h, Nat.xor_zero]

theorem xor_mod_two_pow (a b n : Nat) :
    (a ^^^ b) % 2 ^ n = a % 2 ^ n ^^^ b % 2 ^ n := by
  apply Nat.eq_of_testBit_eq
  intro i
  by_cases h : i < n <;>
    simp [Nat.testBit_mod_two_pow, Nat.testBit_xor, h]

theorem crcStep_testBit_zero (c : Nat) : (crcStep c).testBit 0 = c.testBit 15 := by
  rw [crcStep_eq, show (65536 : Nat) = 2 ^ 16 by norm_num]
  by_cases h : c.testBit 15
  · rw [if_pos h, h]
    simp only [Nat.testBit_mod_two_pow, Nat.testBit_xor, Nat.testBit_shiftLeft]
    rw [show decide ((0 : Nat) < 16) = true from rfl,
      show decide ((0 : Nat) ≥ 1) = false from rfl,
      show Nat.testBit 4129 0 = true from rfl]
    simp only [Bool.false_and, Bool.false_xor, Bool.true_and]
  · rw [if_neg h, Nat.xor_zero]
    simp only [Nat.testBit_mod_two_pow, Nat.testBit_shiftLeft]
    rw [show decide ((0 : Nat) < 16) = true from rfl,
      show decide ((0 : Nat) ≥ 1) = false from rfl]
    simp only [Bool.false_and, Bool.true_and]
    exact (Bool.eq_false_iff.mpr h).symm

theorem crcStep_injOn {a b : Nat} (ha : a < 65536) (hb : b < 65536)
    (h : crcStep a = crcStep b) : a = b := by
  have h15 : a.testBit 15 = b.testBit 15 := by
    rw [← crcStep_testBit_zero a, ← crcStep_testBit_zero b, h]
  rw [crcStep_eq, crcStep_eq, h15, show (65536 : Nat) = 2 ^ 16 by norm_num,
    xor_mod_two_pow, xor_mod_two_pow,
    Nat.mod_eq_of_lt (a := if b.testBit 15 then (0x1021 : Nat) else 0)
      (by split_ifs <;> norm_num)] at h
  have h3 : (a <<< 1) % 2 ^ 16 = (b <<< 1) % 2 ^ 16 := xor_right_cancel' h
  apply Nat.eq_of_testBit_eq
  intro i
  rcases Nat.lt_or_ge i 15 with hi | hi
  · have h4 := congrArg (fun x => x.testBit (i + 1)) h3
    simp only [Nat.testBit_mod_two_pow, Nat.testBit_shiftLeft] at h4
    rw [decide_eq_true (show i + 1 < 16 by omega),
      decide_eq_true (show i + 1 ≥ 1 by omega)] at h4
    simp only [Bool.true_and, Nat.add_sub_cancel] at h4
    exact h4
  · rcases Nat.eq_or_lt_of_le hi with hi' | hi'
    · rw [← hi']; exact h15
    · have hla : a.testBit i = false :=
        Nat.testBit_lt_two_pow (by calc a < 2 ^ 16 := by omega
          _ ≤ 2 ^ i := Nat.pow_le_pow_right (by norm_num) (by omega))
      have hlb : b.testBit i = false :=
        Nat.testBit_lt_two_pow (by calc b < 2 ^ 16 := by omega
          _ ≤ 2 ^ i := Nat.pow_le_pow_right (by norm_num) (by omega))
      rw [hla, hlb]

theorem crcStepIter_lt (n : Nat) {c : Nat} (h : c < 65536) :
    crcStep^[n] c < 65536 := by
  induction n generalizing c with
  | zero => simpa using h
  | succ n ih =>
    rw [Function.iterate_succ_apply]
    exact ih (crcStep_lt c)

theorem crcStepIter_injOn (n : Nat) {a b : Nat} (ha : a < 65536) (hb : b < 65536)
    (h : crcStep^[n] a = crcStep^[n] b) : a = b := by
  induction n generalizing a b with
  | zero => simpa using h
  | succ n ih =>
    rw [Function.iterate_succ_apply, Function.iterate_succ_apply] at h
    exact crcStep_injOn ha hb (ih (crcStep_lt a) (crcStep_lt b) h)

theorem crcByte_lt {a x : Nat} (ha : a < 65536) (hx : x < 256) :
    crcByte a x < 65536 := by
  rw [crcByte]
  exact crcStepIter_lt 8 (xor_lt_65536 ha (by rw [shiftL8]; omega))

theorem crcByte_injOn {x a b : Nat} (hx : x < 256) (ha : a < 65536)
    (hb : b < 65536) (h : crcByte a x = crcByte b x) : a = b := by
  rw [crcByte, crcByte] at h
  have hs : x <<< 8 < 65536 := by rw [shiftL8]; omega
  have h2 := crcStepIter_injOn 8 (xor_lt_65536 ha hs) (xor_lt_65536 hb hs) h
  exact xor_right_cancel' h2

theorem crcByte_flip_ne {a x j : Nat} (ha : a < 65536) (hx : x < 256)
    (hj : j < 8) : crcByte a (x ^^^ 1 <<< j) ≠ crcByte a x := by
  intro h
  have hx' : x ^^^ 1 <<< j < 256 := by
    have h2 := Nat.xor_lt_two_pow (n := 8) (x := x) (y := 1 <<< j) (by omega)
      (by rw [Nat.one_shiftLeft]; exact Nat.pow_lt_pow_right (by norm_num) hj)
    omega
  rw [crcByte, crcByte] at h
  have hs : x <<< 8 < 65536 := by rw [shiftL8]; omega
  have hs' : (x ^^^ 1 <<< j) <<< 8 < 65536 := by rw [shiftL8]; omega
  have h2 := crcStepIter_injOn 8 (xor_lt_65536 ha hs') (xor_lt_65536 ha hs) h
  have h3 : (x ^^^ 1 <<< j) <<< 8 = x <<< 8 := xor_left_cancel' h2
  rw [shiftL8, shiftL8] at h3
  have h4 : x ^^^ 1 <<< j = x := by omega
  exact xor_pow_ne x j h4

theorem crcFold_lt : ∀ (l : List Nat) {a : Nat}, (∀ x ∈ l, x < 256) →
    a < 65536 → l.foldl crcByte a < 65536 := by
  intro l
  induction l with
  | nil => intro a _ ha; simpa using ha
  | cons x xs ih =>
    intro a hb ha
    rw [List.foldl_cons]
    exact ih (fun y hy => hb y (List.mem_cons_of_mem x hy))
      (crcByte_lt ha (hb x (List.mem_cons_self x xs)))

theorem crcFold_injOn : ∀ (l : List Nat) {a b : Nat}, (∀ x ∈ l, x < 256) →
    a < 65536 → b < 65536 → l.foldl crcByte a = l.foldl crcByte b → a = b := by
  intro l
  induction l with
  | nil => intro a b _ _ _ h; simpa using h
  | cons x xs ih =>
    intro a b hb ha hb' h
    rw [List.foldl_cons, List.foldl_cons] at h
    have hx := hb x (List.mem_cons_self x xs)
    exact crcByte_injOn hx ha hb'
      (ih (fun y hy => hb y (List.mem_cons_of_mem x hy))
        (crcByte_lt ha hx) (crcByte_lt hb' hx) h)

theorem crcFold_flip_ne : ∀ (l : List Nat) (i : Nat) {a : Nat} (j : Nat),
    i < l.length → j < 8 → (∀ x ∈ l, x < 256) → a < 65536 →
    (l.set i (l.getD i 0 ^^^ 1 <<< j)).foldl crcByte a ≠ l.foldl crcByte a := by
  intro l
  induction l with
  | nil => intro i a j hi; simp at hi
  | cons x xs ih =>
    intro i a j hi hj hb ha
    have hx := hb x (List.mem_cons_self x xs)
    have hxs := fun y hy => hb y (List.mem_cons_of_mem x hy)
    match i with
    | 0 =>
      simp only [List.getD_cons_zero, List.set_cons_zero, List.foldl_cons]
      intro h
      have hx' : x ^^^ 1 <<< j < 256 := by
        have h2 := Nat.xor_lt_two_pow (n := 8) (x := x) (y := 1 <<< j) (by omega)
          (by rw [Nat.one_shiftLeft]; exact Nat.pow_lt_pow_right (by norm_num) hj)
        omega
      have h2 := crcFold_injOn xs hxs (crcByte_lt ha hx') (crcByte_lt ha hx) h
      exact crcByte_flip_ne ha hx hj h2
    | i + 1 =>
      simp only [List.getD_cons_succ, List.set_cons_succ, List.foldl_cons]
      exact ih i j (by simpa using hi) hj hxs (crcByte_lt ha hx)

theorem calculate_crc_flip_ne (data : List Nat) (i j : Nat)
    (hi : i < data.length) (hj : j < 8) (hb : ∀ x ∈ data, x < 256) :
    calculate_crc (data.set i (data.getD i 0 ^^^ 1 <<< j)) ≠ calculate_crc data := by
  rw [calculate_crc, calculate_crc]
  exact crcFold_flip_ne data i j hi hj hb (by norm_num)

theorem getD_append_at (l : List Nat) (x y : Nat) :
    (l ++ [x, y]).getD l.length 0 = x := by
  induction l with
  | nil => rfl
  | cons a l ih => simpa using ih

theorem getD_append_at1 (l : List Nat) (x y : Nat) :
    (l ++ [x, y]).getD (l.length + 1) 0 = y := by
  induction l with
  | nil => rfl
  | cons a l ih => simpa using ih

theorem take_append_self (l l' : List Nat) : (l ++ l').take l.length = l :=
  List.take_left l l'

theorem set_append_at (l : List Nat) (x y v : Nat) :
    (l ++ [x, y]).set l.length v = l ++ [v, y] := by
  induction l with
  | nil => rfl
  | cons a l ih => simpa using ih

theorem set_append_at1 (l : List Nat) (x y v : Nat) :
    (l ++ [x, y]).set (l.length + 1) v = l ++ [x, v] := by
  induction l with
  | nil => rfl
  | cons a l ih => simpa using ih

theorem getD_append_lt (l l' : List Nat) (i : Nat) (h : i < l.length) :
    (l ++ l').getD i 0 = l.getD i 0 := by
  induction l generalizing i with
  | nil => simp at h
  | cons a l ih =>
    match i with
    | 0 => rfl
    | i + 1 =>
      simp only [List.cons_append, List.getD_cons_succ]
      exact ih i (by simpa using h)

theorem set_append_lt (l l' : List Nat) (i v : Nat) (h : i < l.length) :
    (l ++ l').set i v = l.set i v ++ l' := by
  induction l generalizing i with
  | nil => simp at h
  | cons a l ih =>
    match i with
    | 0 => rfl
    | i + 1 =>
      simp only [List.cons_append, List.set_cons_succ]
      rw [ih i (by simpa using h)]

theorem verify_crc_append (l : List Nat) (x y : Nat) (hl : 0 < l.length) :
    verify_crc (l ++ [x, y]) = (calculate_crc l == x + 256 * y) := by
  simp only [verify_crc]
  rw [if_neg (by
    simp only [List.length_append, List.length_cons, List.length_nil]; omega)]
  have hlen : (l ++ [x, y]).length - 2 = l.length := by
    simp only [List.length_append, List.length_cons, List.length_nil]; omega
  rw [hlen, take_append_self, getD_append_at, getD_append_at1]

/-- Claim C1: for every non-empty byte sequence `data`, `verify_crc` accepts
`append_crc data`; and flipping any single bit of the CRC-appended buffer
(any bit position `j < 8` of any byte `i` of the buffer) makes `verify_crc`
return `false`. -/
theorem crc_append_verify_flip (data : List Nat) (hne : data ≠ [])
    (hbytes : ∀ x ∈ data, x < 256) :
    verify_crc (append_crc data) = true ∧
    ∀ i j, i < (append_crc data).length → j < 8 →
      verify_crc (flipBit (append_crc data) i j) = false := by
  have hn : 0 < data.length := List.length_pos.mpr hne
  have hc : calculate_crc data < 65536 := by
    rw [calculate_crc]; exact crcFold_lt data hbytes (by norm_num)
  constructor
  · rw [append_crc, verify_crc_append _ _ _ hn]
    simp only [beq_iff_eq]
    omega
  · intro i j hi hj
    rw [append_crc] at hi
    simp only [List.length_append, List.length_cons, List.length_nil] at hi
    rcases Nat.lt_or_ge i data.length with hA | hB
    · have hset : flipBit (append_crc data) i j =
          data.set i (data.getD i 0 ^^^ 1 <<< j) ++
            [calculate_crc data % 256, calculate_crc data / 256] := by
        rw [flipBit, append_crc, getD_append_lt _ _ _ hA, set_append_lt _ _ _ _ hA]
      rw [hset, verify_crc_append _ _ _ (by rw [List.length_set]; omega),
        beq_eq_false_iff_ne]
      have hne2 := calculate_crc_flip_ne data i j hA hj hbytes
      omega
    · rcases Nat.eq_or_lt_of_le hB with hB' | hB'
      · rw [flipBit, append_crc, ← hB', getD_append_at, set_append_at,
          verify_crc_append _ _ _ hn, beq_eq_false_iff_ne]
        have hx := xor_pow_ne (calculate_crc data % 256) j
        omega
      · have hB2 : i = data.length + 1 := by omega
        rw [flipBit, append_crc, hB2, getD_append_at1, set_append_at1,
          verify_crc_append _ _ _ hn, beq_eq_false_iff_ne]
        have hy := xor_pow_ne (calculate_crc data / 256) j
        omega

theorem crc_append_verify_flip_witness :
    verify_crc (append_crc [202, 1, 0]) = true ∧
    verify_crc (flipBit (append_crc [202, 1, 0]) 0 0) = false ∧
    verify_crc (flipBit (append_crc [202, 1, 0]) 4 7) = false := by
  have h := crc_append_verify_flip [202, 1, 0] (by decide)
    (by intro x hx; simp only [List.mem_cons, List.not_mem_nil, or_false] at hx
        rcases hx with h | h | h <;> omega)
  exact ⟨h.1, h.2 0 0 (by decide) (by decide), h.2 4 7 (by decide) (by decide)⟩

end Combustion
